import Mathlib

/-!
Verification of the SistemaAprodmayo repository: a shallow embedding of the
workshop (Taller) status recomputation, member (Socio) dues check, beneficiary
search endpoints, category deletion, report stubs and payment-receipt
generator, with theorems settling the specification claims C1 to C10.

Dates are embedded as integers (a day number); `date1 < date2` in Python
corresponds to `<` on `Int`.
-/

/-- The four workshop states of `Taller.ESTADO_CHOICES`
(src/talleres/models.py). -/
inductive Estado where
  | PROGRAMADO
  | EN_CURSO
  | FINALIZADO
  | CANCELADO
deriving DecidableEq, Repr

/-- A `Taller` record (src/talleres/models.py), restricted to the fields the
claims are about.  `inscritos` stands for the number of rows of
`participante_set`, so `inscritos_count()` returns it. -/
structure Taller where
  estado : Estado
  fecha_inicio : Int
  fecha_fin : Int
  capacidad : Nat
  inscritos : Nat
deriving DecidableEq, Repr

/-- `Taller.inscritos_count` (src/talleres/models.py lines 124-131):
`self.participante_set.count()`. -/
def Taller.inscritos_count (t : Taller) : Nat := t.inscritos

/-- `Taller.disponibilidad` (src/talleres/models.py lines 133-140):
`max(0, self.capacidad - self.inscritos_count())` over Python integers. -/
def Taller.disponibilidad (t : Taller) : Int :=
  max 0 ((t.capacidad : Int) - (t.inscritos_count : Int))

/-- `Taller.esta_lleno` (src/talleres/models.py lines 142-149):
`self.inscritos_count() >= self.capacidad`. -/
def Taller.esta_lleno (t : Taller) : Bool :=
  t.capacidad ≤ t.inscritos_count

/-- `Taller.porcentaje_ocupacion` (src/talleres/models.py lines 151-160):
`if self.capacidad <= 0: return 0` then
`(self.inscritos_count() / self.capacidad) * 100`; `capacidad` is a
`PositiveIntegerField`, hence a natural number, and the division is embedded
exactly over `ℚ`. -/
def Taller.porcentaje_ocupacion (t : Taller) : ℚ :=
  if t.capacidad ≤ 0 then 0
  else ((t.inscritos_count : ℚ) / (t.capacidad : ℚ)) * 100

/-- Guarded variant of `porcentaje_ocupacion` that makes the division-by-zero
error branch explicit: it returns `none` exactly when the division
`inscritos_count / capacidad` would divide by zero. -/
def Taller.porcentaje_ocupacion_checked (t : Taller) : Option ℚ :=
  if t.capacidad ≤ 0 then some 0
  else if (t.capacidad : ℚ) = 0 then none
  else some (((t.inscritos_count : ℚ) / (t.capacidad : ℚ)) * 100)

/-! ## The five duplicated copies of the status-derivation rule

Each function below is the date-to-status rule of one call site, embedded
from that call site's own lines. -/

/-- Status rule of the management command `actualizar_estados`
(src/talleres/management/commands/actualizar_estados.py lines 29-34):
`if hoy < taller.fecha_inicio: PROGRAMADO elif hoy <= taller.fecha_fin:
EN_CURSO else: FINALIZADO`. -/
def Command_actualizar_estados_nuevoEstado (hoy inicio fin : Int) : Estado :=
  if hoy < inicio then .PROGRAMADO
  else if hoy ≤ fin then .EN_CURSO
  else .FINALIZADO

/-- Status rule of the management command `actualizar_estados_talleres`
(src/talleres/management/commands/actualizar_estados_talleres.py lines
18-25): `if today < t.fecha_inicio: PROGRAMADO elif t.fecha_inicio <= today
<= t.fecha_fin: EN_CURSO else: FINALIZADO`. -/
def Command_actualizar_estados_talleres_nuevoEstado (today inicio fin : Int) : Estado :=
  if today < inicio then .PROGRAMADO
  else if inicio ≤ today ∧ today ≤ fin then .EN_CURSO
  else .FINALIZADO

/-- Status rule of the standalone script (src/actualizar_estados.py lines
20-25), the same chain as the `actualizar_estados_talleres` command. -/
def script_actualizar_estados_nuevoEstado (today inicio fin : Int) : Estado :=
  if today < inicio then .PROGRAMADO
  else if inicio ≤ today ∧ today ≤ fin then .EN_CURSO
  else .FINALIZADO

/-- Status rule of `TallerListView.actualizar_estados_talleres`
(src/talleres/views.py lines 85-95). -/
def TallerListView_nuevoEstado (hoy inicio fin : Int) : Estado :=
  if hoy < inicio then .PROGRAMADO
  else if hoy ≤ fin then .EN_CURSO
  else .FINALIZADO

/-- Status rule of `TallerDetailView.get_object`
(src/talleres/views.py lines 185-192). -/
def TallerDetailView_nuevoEstado (hoy inicio fin : Int) : Estado :=
  if hoy < inicio then .PROGRAMADO
  else if hoy ≤ fin then .EN_CURSO
  else .FINALIZADO

/-- Status rule of `TallerCreateView.form_valid`
(src/talleres/views.py lines 152-158). -/
def TallerCreateView_nuevoEstado (hoy inicio fin : Int) : Estado :=
  if hoy < inicio then .PROGRAMADO
  else if hoy ≤ fin then .EN_CURSO
  else .FINALIZADO

/-- Status rule of `TallerUpdateView.form_valid`
(src/talleres/views.py lines 273-280). -/
def TallerUpdateView_nuevoEstado (hoy inicio fin : Int) : Estado :=
  if hoy < inicio then .PROGRAMADO
  else if hoy ≤ fin then .EN_CURSO
  else .FINALIZADO

/-! ## The recomputation passes over the stored talleres -/

/-- The pass of the management command `actualizar_estados`
(src/talleres/management/commands/actualizar_estados.py `Command.handle`):
it iterates `Taller.objects.exclude(estado='CANCELADO')` and stores the
recomputed status, so cancelled talleres are left untouched. -/
def Command_actualizar_estados_run (hoy : Int) (db : List Taller) : List Taller :=
  db.map fun t =>
    if t.estado = .CANCELADO then t
    else { t with estado := Command_actualizar_estados_nuevoEstado hoy t.fecha_inicio t.fecha_fin }

/-- The pass of the management command `actualizar_estados_talleres`
(src/talleres/management/commands/actualizar_estados_talleres.py
`Command.handle`): it iterates `Taller.objects.all()` — with no exclusion of
cancelled talleres — and stores the recomputed status whenever it differs. -/
def Command_actualizar_estados_talleres_run (hoy : Int) (db : List Taller) : List Taller :=
  db.map fun t =>
    { t with estado := Command_actualizar_estados_talleres_nuevoEstado hoy t.fecha_inicio t.fecha_fin }

/-- The pass of the standalone script `actualizar_estados`
(src/actualizar_estados.py lines 13-32): it also iterates
`Taller.objects.all()` with no exclusion of cancelled talleres. -/
def script_actualizar_estados_run (hoy : Int) (db : List Taller) : List Taller :=
  db.map fun t =>
    { t with estado := script_actualizar_estados_nuevoEstado hoy t.fecha_inicio t.fecha_fin }

/-- The pass of `TallerListView.actualizar_estados_talleres`
(src/talleres/views.py lines 74-99): it iterates
`Taller.objects.exclude(estado='CANCELADO')`. -/
def TallerListView_actualizar_estados_run (hoy : Int) (db : List Taller) : List Taller :=
  db.map fun t =>
    if t.estado = .CANCELADO then t
    else { t with estado := TallerListView_nuevoEstado hoy t.fecha_inicio t.fecha_fin }

/-- `TallerDetailView.get_object` (src/talleres/views.py lines 177-201) on
one taller: recomputes the status unless the stored status is CANCELADO. -/
def TallerDetailView_get_object (hoy : Int) (t : Taller) : Taller :=
  if t.estado = .CANCELADO then t
  else { t with estado := TallerDetailView_nuevoEstado hoy t.fecha_inicio t.fecha_fin }

/-- `TallerCreateView.form_valid` (src/talleres/views.py lines 137-163) on
the submitted instance: recomputes the status unless the submitted status is
CANCELADO. -/
def TallerCreateView_form_valid (hoy : Int) (t : Taller) : Taller :=
  if t.estado ≠ .CANCELADO then
    { t with estado := TallerCreateView_nuevoEstado hoy t.fecha_inicio t.fecha_fin }
  else t

/-- `TallerUpdateView.form_valid` (src/talleres/views.py lines 257-282) on
the submitted instance: recomputes the status unless the submitted status is
CANCELADO. -/
def TallerUpdateView_form_valid (hoy : Int) (t : Taller) : Taller :=
  if t.estado ≠ .CANCELADO then
    { t with estado := TallerUpdateView_nuevoEstado hoy t.fecha_inicio t.fecha_fin }
  else t

/-! ## Socios and their dues (src/finanzas/models.py) -/

/-- A `PagoSocio` row (src/finanzas/models.py lines 107-135), restricted to
the fields the claims are about.  Tables of payments are embedded as lists in
creation order (increasing primary key), so `objects.order_by('-id').first()`
is the last element. -/
structure PagoSocio where
  fecha : Int
  comprobante : String
deriving DecidableEq, Repr

/-- A `Socio` row (src/finanzas/models.py lines 41-104), restricted to the
fields the claims are about; `pagos` is the reverse relation
`socio.pagos` of `PagoSocio.socio`. -/
structure Socio where
  fecha_registro : Int
  pagos : List PagoSocio
deriving DecidableEq, Repr

/-- `Socio.get_ultima_cuota` (src/finanzas/models.py lines 80-83):
`self.pagos.order_by('-fecha').first()` followed by `.fecha`, i.e. the
greatest payment date, or `None` when there are no payments. -/
def Socio.get_ultima_cuota (s : Socio) : Option Int :=
  (s.pagos.map PagoSocio.fecha).max?

/-- `Socio.esta_al_dia` (src/finanzas/models.py lines 85-104), with `hoy`
(the value of `timezone.now().date()`) passed explicitly: if there is a last
payment, `(hoy - ultimo_pago).days <= 40`; otherwise
`(hoy - fecha_registro).days <= 40`. -/
def Socio.esta_al_dia (hoy : Int) (s : Socio) : Bool :=
  match s.get_ultima_cuota with
  | some ultimo_pago => hoy - ultimo_pago ≤ 40
  | none => hoy - s.fecha_registro ≤ 40

/-! ## Beneficiary search endpoints -/

/-- A `Beneficiaria` row (src/beneficiarias/models.py lines 5-104),
restricted to the text fields the search endpoints touch.  Strings are
embedded as lists of characters. -/
structure Beneficiaria where
  nombres : List Char
  apellidos : List Char
  documento_identidad : List Char
deriving DecidableEq, Repr

/-- The field names of the `Beneficiaria` model
(src/beneficiarias/models.py).  A Django `filter(...)` lookup on any other
name raises `FieldError`.  Note that the model has `documento_identidad` but
no field called `dni`. -/
def beneficiariaFieldNames : List String :=
  ["id", "fecha_ingreso", "hora_ingreso", "nombres", "apellidos", "edad",
   "fecha_nacimiento", "documento_identidad", "tipo_documento", "direccion",
   "telefono", "correo", "estado_civil", "nivel_educativo", "ocupacion",
   "situacion_laboral", "motivo_consulta", "tipo_violencia",
   "descripcion_situacion", "problemas_salud", "medicacion", "tiene_hijos",
   "numero_hijos", "situacion_vivienda", "seguimiento_requerido",
   "notas_seguimiento", "recibido_por"]

/-- The value of a searchable text field of a `Beneficiaria`, by field
name. -/
def Beneficiaria.fieldVal (b : Beneficiaria) : String → List Char
  | "nombres" => b.nombres
  | "apellidos" => b.apellidos
  | "documento_identidad" => b.documento_identidad
  | _ => []

/-- Django's `__icontains` lookup: case-insensitive substring test. -/
def icontains (campo term : List Char) : Bool :=
  decide ((term.map Char.toLower) <:+: (campo.map Char.toLower))

/-- Django's `Beneficiaria.objects.filter(Q(f1__icontains=term) | ...)`:
resolving an unknown field name raises `FieldError`; otherwise the rows
matching the term on at least one of the fields are returned. -/
def djangoFilterIcontainsQ (fields : List String) (term : List Char)
    (db : List Beneficiaria) : Except String (List Beneficiaria) :=
  if fields.all (fun f => beneficiariaFieldNames.contains f) then
    .ok (db.filter fun b => fields.any fun f => icontains (b.fieldVal f) term)
  else
    .error "FieldError: cannot resolve keyword into field"

/-- `buscar_beneficiarias_api` (src/beneficiarias/views.py lines 161-187):
empty list when `len(term) < 3`, otherwise the matches on
nombres/apellidos/documento_identidad, capped by the slice `[:10]`. -/
def buscar_beneficiarias_api (term : List Char) (db : List Beneficiaria) :
    Except String (List Beneficiaria) :=
  if term.length < 3 then .ok []
  else
    (djangoFilterIcontainsQ ["nombres", "apellidos", "documento_identidad"] term db).map
      (fun l => l.take 10)

/-- `buscar_beneficiarias` (src/talleres/views.py lines 397-436): empty list
when `not term or len(term) < 3`, otherwise a filter on
`nombres`/`apellidos`/`dni`, capped by the slice `[:10]`.  The field lookup
`dni` is evaluated against the `Beneficiaria` model. -/
def talleres_buscar_beneficiarias (term : List Char) (db : List Beneficiaria) :
    Except String (List Beneficiaria) :=
  if term.isEmpty || term.length < 3 then .ok []
  else
    (djangoFilterIcontainsQ ["nombres", "apellidos", "dni"] term db).map
      (fun l => l.take 10)

/-! ## Category deletion (src/finanzas/views.py, src/finanzas/models.py) -/

/-- The finance tables the category-deletion claim is about: categoria ids,
and the `categoria_id` foreign keys stored on `Ingreso` and `Egreso` rows. -/
structure FinanzasDB where
  categorias : List Nat
  ingresos_categoria_ids : List Nat
  egresos_categoria_ids : List Nat
deriving DecidableEq, Repr

/-- A Django flash message (`messages.success` / `messages.error`). -/
inductive FlashMessage where
  | success (text : String)
  | error (text : String)
deriving DecidableEq, Repr

/-- Deleting a `Categoria` under the `on_delete=models.PROTECT` declarations
of `Ingreso.categoria` and `Egreso.categoria` (src/finanzas/models.py lines
161-180 and 191-210): if any income or expense row references the category,
the delete raises `ProtectedError` (an `IntegrityError`) and nothing is
removed; otherwise the category row is removed. -/
def categoriaDeleteProtected (db : FinanzasDB) (cid : Nat) :
    Except String FinanzasDB :=
  if db.ingresos_categoria_ids.contains cid || db.egresos_categoria_ids.contains cid then
    .error "ProtectedError"
  else
    .ok { db with categorias := db.categorias.filter (fun c => c ≠ cid) }

/-- The observable outcome of `CategoriaDeleteView.delete`: the resulting
tables, the flash message added, and the URL name redirected to. -/
structure DeleteOutcome where
  db : FinanzasDB
  flash : FlashMessage
  redirect_to : String
deriving DecidableEq, Repr

/-- `CategoriaDeleteView.delete` (src/finanzas/views.py lines 74-88):
`try: response = super().delete(...)` then a success flash and the redirect
to `success_url = reverse_lazy('categoria_list')`; on `Exception`, an error
flash and `redirect('categoria_list')`. -/
def CategoriaDeleteView_delete (db : FinanzasDB) (cid : Nat) : DeleteOutcome :=
  match categoriaDeleteProtected db cid with
  | .ok db2 =>
    { db := db2, flash := .success "Categoría eliminada exitosamente",
      redirect_to := "categoria_list" }
  | .error e =>
    { db := db, flash := .error
        ("No se puede eliminar la categoría porque está siendo utilizada: " ++ e),
      redirect_to := "categoria_list" }

/-! ## Report export stubs (src/reportes/views.py) -/

/-- An HTTP response, restricted to body and content type. -/
structure HttpResponse where
  content : String
  content_type : String
deriving DecidableEq, Repr

/-- `generar_pdf` (src/reportes/views.py lines 378-384): returns the fixed
plain-text `HttpResponse` on every input; the function body is a single
`return` before any PDF machinery. -/
def generar_pdf (template_path : String) (context : List (String × String)) :
    HttpResponse :=
  { content := "Funcionalidad de PDF temporalmente deshabilitada por falta de dependencias del sistema",
    content_type := "text/plain" }

/-- `exportar_balance_financiero_excel` (src/reportes/views.py lines
414-420): returns the fixed plain-text `HttpResponse` on every input; the
workbook-building code after the `return` statement is unreachable. -/
def exportar_balance_financiero_excel (context : List (String × String)) :
    HttpResponse :=
  { content := "Funcionalidad de Excel temporalmente deshabilitada por falta de dependencias del sistema",
    content_type := "text/plain" }

/-! ## Receipt numbering (src/finanzas/models.py `PagoSocio.get_next_comprobante`)

Python's `int(str)` accepts optional surrounding whitespace, an optional
sign, and a nonempty digit sequence in which single underscores may appear
between digits; anything else raises `ValueError`. -/

/-- Continuation of the digit parse of Python `int`: consumes the remaining
characters after at least one digit has been read, allowing a single
underscore only between two digits. -/
def parseDigitsRest (acc : Nat) : List Char → Option Nat
  | [] => some acc
  | '_' :: c :: cs =>
    if c.isDigit then parseDigitsRest (acc * 10 + (c.toNat - 48)) cs else none
  | ['_'] => none
  | c :: cs =>
    if c.isDigit then parseDigitsRest (acc * 10 + (c.toNat - 48)) cs else none

/-- Digit-sequence parse of Python `int`: a nonempty digit list, underscores
allowed only between digits. -/
def parseDigits : List Char → Option Nat
  | [] => none
  | c :: cs => if c.isDigit then parseDigitsRest (c.toNat - 48) cs else none

/-- Python `int(s)` on a string: strip whitespace, optional sign, digit
sequence; `none` models `ValueError` / `TypeError`. -/
def pyInt (s : String) : Option Int :=
  let t := ((s.toList.dropWhile Char.isWhitespace).reverse.dropWhile
    Char.isWhitespace).reverse
  match t with
  | '+' :: rest => (parseDigits rest).map (fun n => (n : Int))
  | '-' :: rest => (parseDigits rest).map (fun n => -(n : Int))
  | rest => (parseDigits rest).map (fun n => (n : Int))

/-- `PagoSocio.get_next_comprobante` (src/finanzas/models.py lines 136-158):
`cls.objects.order_by('-id').first()` is the most recently created payment
(the last element of the creation-ordered table); if there is none or its
`comprobante` is falsy (the empty string) the result is `"1"`; otherwise
`str(int(comprobante) + 1)`, falling back to `"1"` when `int` raises. -/
def PagoSocio.get_next_comprobante (pagos : List PagoSocio) : String :=
  match pagos.getLast? with
  | none => "1"
  | some ultimo_pago =>
    if ultimo_pago.comprobante = "" then "1"
    else
      match pyInt ultimo_pago.comprobante with
      | some n => toString (n + 1)
      | none => "1"

/-- `s` is the decimal representation of a positive integer. -/
def esDecimalDePositivo (s : String) : Prop :=
  ∃ n : Nat, 0 < n ∧ s = Nat.repr n

/-! ## Claims -/

/-- C5: the duplicated copies of the status-derivation rule are equivalent:
for every combination of today's date, start date and end date, the status
computed by the two management commands, the standalone script, the list
view, the detail view, the create view and the update view is the same. -/
theorem C5_status_rule_copies_equivalent (hoy inicio fin : Int) :
    Command_actualizar_estados_talleres_nuevoEstado hoy inicio fin
        = Command_actualizar_estados_nuevoEstado hoy inicio fin ∧
    script_actualizar_estados_nuevoEstado hoy inicio fin
        = Command_actualizar_estados_nuevoEstado hoy inicio fin ∧
    TallerListView_nuevoEstado hoy inicio fin
        = Command_actualizar_estados_nuevoEstado hoy inicio fin ∧
    TallerDetailView_nuevoEstado hoy inicio fin
        = Command_actualizar_estados_nuevoEstado hoy inicio fin ∧
    TallerCreateView_nuevoEstado hoy inicio fin
        = Command_actualizar_estados_nuevoEstado hoy inicio fin ∧
    TallerUpdateView_nuevoEstado hoy inicio fin
        = Command_actualizar_estados_nuevoEstado hoy inicio fin := by
  unfold Command_actualizar_estados_talleres_nuevoEstado
    Command_actualizar_estados_nuevoEstado script_actualizar_estados_nuevoEstado
    TallerListView_nuevoEstado TallerDetailView_nuevoEstado
    TallerCreateView_nuevoEstado TallerUpdateView_nuevoEstado
  refine ⟨?_, ?_, rfl, rfl, rfl, rfl⟩ <;>
    split_ifs <;> first | rfl | omega

/-- C2: for every workshop stored at index `i` that is not cancelled and has
`fecha_inicio ≤ fecha_fin`, after the recomputation pass of the
`actualizar_estados` management command (and likewise the list view's pass)
on day `hoy`, the stored status is PROGRAMADO iff `hoy` is before the start,
EN_CURSO iff `hoy` is between start and end inclusive, and FINALIZADO iff
`hoy` is after the end. -/
theorem C2_recomputed_status_iff_dates (hoy : Int) (db : List Taller) (i : Nat)
    (w : Taller) (hw : db[i]? = some w) (hnc : w.estado ≠ Estado.CANCELADO)
    (hse : w.fecha_inicio ≤ w.fecha_fin) :
    (∃ w', (Command_actualizar_estados_run hoy db)[i]? = some w' ∧
      (w'.estado = Estado.PROGRAMADO ↔ hoy < w.fecha_inicio) ∧
      (w'.estado = Estado.EN_CURSO ↔ (w.fecha_inicio ≤ hoy ∧ hoy ≤ w.fecha_fin)) ∧
      (w'.estado = Estado.FINALIZADO ↔ w.fecha_fin < hoy)) ∧
    (∃ w', (TallerListView_actualizar_estados_run hoy db)[i]? = some w' ∧
      (w'.estado = Estado.PROGRAMADO ↔ hoy < w.fecha_inicio) ∧
      (w'.estado = Estado.EN_CURSO ↔ (w.fecha_inicio ≤ hoy ∧ hoy ≤ w.fecha_fin)) ∧
      (w'.estado = Estado.FINALIZADO ↔ w.fecha_fin < hoy)) := by
  constructor
  · refine ⟨{ w with estado := Command_actualizar_estados_nuevoEstado hoy w.fecha_inicio w.fecha_fin }, ?_, ?_⟩
    · simp [Command_actualizar_estados_run, List.getElem?_map, hw, hnc]
    · unfold Command_actualizar_estados_nuevoEstado
      split_ifs <;> refine ⟨?_, ?_, ?_⟩ <;> simp <;> omega
  · refine ⟨{ w with estado := TallerListView_nuevoEstado hoy w.fecha_inicio w.fecha_fin }, ?_, ?_⟩
    · simp [TallerListView_actualizar_estados_run, List.getElem?_map, hw, hnc]
    · unfold TallerListView_nuevoEstado
      split_ifs <;> refine ⟨?_, ?_, ?_⟩ <;> simp <;> omega

/-- Witness for C2 at a concrete database: one non-cancelled taller with
start 0 and end 10, recomputed on day 5, is EN_CURSO. -/
theorem C2_recomputed_status_iff_dates_witness :
    (∃ w', (Command_actualizar_estados_run 5 [Taller.mk Estado.PROGRAMADO 0 10 20 3])[0]?
        = some w' ∧
      (w'.estado = Estado.PROGRAMADO ↔ (5:Int) < (0:Int)) ∧
      (w'.estado = Estado.EN_CURSO ↔ ((0:Int) ≤ (5:Int) ∧ (5:Int) ≤ (10:Int))) ∧
      (w'.estado = Estado.FINALIZADO ↔ (10:Int) < (5:Int))) ∧
    (∃ w', (TallerListView_actualizar_estados_run 5 [Taller.mk Estado.PROGRAMADO 0 10 20 3])[0]?
        = some w' ∧
      (w'.estado = Estado.PROGRAMADO ↔ (5:Int) < (0:Int)) ∧
      (w'.estado = Estado.EN_CURSO ↔ ((0:Int) ≤ (5:Int) ∧ (5:Int) ≤ (10:Int))) ∧
      (w'.estado = Estado.FINALIZADO ↔ (10:Int) < (5:Int))) :=
  C2_recomputed_status_iff_dates 5 [Taller.mk Estado.PROGRAMADO 0 10 20 3] 0
    (Taller.mk Estado.PROGRAMADO 0 10 20 3) rfl (by decide) (by decide)

/-- C1: the claim that no date-driven recomputation ever replaces CANCELADO
fails on two of the recomputation paths.  At the failing input — a cancelled
taller with start 0 and end 1, recomputed on day 5 — the
`actualizar_estados_talleres` management command and the standalone script
`actualizar_estados.py` overwrite CANCELADO with FINALIZADO (they iterate
`Taller.objects.all()` with no exclusion), while the `actualizar_estados`
command, the list view, the detail view, the create view and the update view
all preserve CANCELADO. -/
theorem C1_cancelado_overwritten_at_failing_input :
    (Command_actualizar_estados_talleres_run 5
        [Taller.mk Estado.CANCELADO 0 1 10 0]).map Taller.estado
      = [Estado.FINALIZADO] ∧
    (script_actualizar_estados_run 5
        [Taller.mk Estado.CANCELADO 0 1 10 0]).map Taller.estado
      = [Estado.FINALIZADO] ∧
    (Command_actualizar_estados_run 5
        [Taller.mk Estado.CANCELADO 0 1 10 0]).map Taller.estado
      = [Estado.CANCELADO] ∧
    (TallerListView_actualizar_estados_run 5
        [Taller.mk Estado.CANCELADO 0 1 10 0]).map Taller.estado
      = [Estado.CANCELADO] ∧
    (TallerDetailView_get_object 5 (Taller.mk Estado.CANCELADO 0 1 10 0)).estado
      = Estado.CANCELADO ∧
    (TallerCreateView_form_valid 5 (Taller.mk Estado.CANCELADO 0 1 10 0)).estado
      = Estado.CANCELADO ∧
    (TallerUpdateView_form_valid 5 (Taller.mk Estado.CANCELADO 0 1 10 0)).estado
      = Estado.CANCELADO := by
  decide

/-- C7: both export operations are disabled placeholders: on every input
they return the fixed plain-text response announcing the functionality as
temporarily disabled, and in particular never a PDF or spreadsheet content
type. -/
theorem C7_export_stubs_disabled (template_path : String)
    (pdf_context excel_context : List (String × String)) :
    generar_pdf template_path pdf_context =
      { content := "Funcionalidad de PDF temporalmente deshabilitada por falta de dependencias del sistema",
        content_type := "text/plain" } ∧
    (generar_pdf template_path pdf_context).content_type ≠ "application/pdf" ∧
    exportar_balance_financiero_excel excel_context =
      { content := "Funcionalidad de Excel temporalmente deshabilitada por falta de dependencias del sistema",
        content_type := "text/plain" } ∧
    (exportar_balance_financiero_excel excel_context).content_type
      ≠ "application/vnd.ms-excel" := by
  refine ⟨rfl, fun h => ?_, rfl, fun h => ?_⟩
  · rw [show (generar_pdf template_path pdf_context).content_type = "text/plain" from rfl] at h
    exact absurd h (by decide)
  · rw [show (exportar_balance_financiero_excel excel_context).content_type = "text/plain" from rfl] at h
    exact absurd h (by decide)

/-- C8: `porcentaje_ocupacion` never divides by zero: the guarded variant
never reaches the division-by-zero branch and agrees with it everywhere;
the result is 0 when `capacidad ≤ 0` and `(inscritos_count / capacidad) * 100`
otherwise, with a nonzero denominator. -/
theorem C8_porcentaje_ocupacion_guarded (t : Taller) :
    t.porcentaje_ocupacion_checked = some t.porcentaje_ocupacion ∧
    (t.capacidad ≤ 0 → t.porcentaje_ocupacion = 0) ∧
    (0 < t.capacidad →
      t.porcentaje_ocupacion = ((t.inscritos_count : ℚ) / (t.capacidad : ℚ)) * 100 ∧
      (t.capacidad : ℚ) ≠ 0) := by
  unfold Taller.porcentaje_ocupacion Taller.porcentaje_ocupacion_checked
  refine ⟨?_, ?_, ?_⟩
  · split_ifs with h1 h2
    · rfl
    · exact absurd (Nat.cast_eq_zero.mp h2) (by omega)
    · rfl
  · intro h; simp [h]
  · intro h
    have hne : (t.capacidad : ℚ) ≠ 0 := Nat.cast_ne_zero.mpr (by omega)
    rw [if_neg (by omega)]
    exact ⟨rfl, hne⟩

/-- Witness for C8: a taller with capacity 4 and 2 enrolled occupies 50%. -/
theorem C8_porcentaje_ocupacion_guarded_witness :
    (Taller.mk Estado.PROGRAMADO 0 0 4 2).porcentaje_ocupacion_checked
      = some ((Taller.mk Estado.PROGRAMADO 0 0 4 2).porcentaje_ocupacion) ∧
    (Taller.mk Estado.PROGRAMADO 0 0 4 2).porcentaje_ocupacion = 50 := by
  have h := C8_porcentaje_ocupacion_guarded (Taller.mk Estado.PROGRAMADO 0 0 4 2)
  refine ⟨h.1, ?_⟩
  rw [(h.2.2 (by decide)).1]
  norm_num [Taller.inscritos_count]

/-- C9: `disponibilidad` is `max(0, capacidad − inscritos_count)` and never
negative; `esta_lleno` holds iff `inscritos_count ≥ capacidad`; and for
`capacidad ≥ 1`, `esta_lleno` holds iff `disponibilidad = 0`. -/
theorem C9_disponibilidad_esta_lleno (t : Taller) :
    t.disponibilidad = max 0 ((t.capacidad : Int) - (t.inscritos_count : Int)) ∧
    0 ≤ t.disponibilidad ∧
    (t.esta_lleno = true ↔ t.capacidad ≤ t.inscritos_count) ∧
    (1 ≤ t.capacidad → (t.esta_lleno = true ↔ t.disponibilidad = 0)) := by
  refine ⟨rfl, le_max_left _ _, by simp [Taller.esta_lleno], fun _ => ?_⟩
  simp only [Taller.esta_lleno, Taller.disponibilidad, decide_eq_true_eq]
  constructor
  · intro h
    have : (t.capacidad : Int) - (t.inscritos_count : Int) ≤ 0 := by
      simp [Taller.inscritos_count] at h ⊢; omega
    omega
  · intro h
    rcases max_choice (0 : Int) ((t.capacidad : Int) - (t.inscritos_count : Int)) with h2 | h2 <;>
      rw [h2] at h <;> simp [Taller.inscritos_count] at * <;> omega

/-- Witness for C9: with capacity 3 and 3 enrolled, the taller is full and
has no places left. -/
theorem C9_disponibilidad_esta_lleno_witness :
    (Taller.mk Estado.PROGRAMADO 0 0 3 3).esta_lleno = true ∧
    (Taller.mk Estado.PROGRAMADO 0 0 3 3).disponibilidad = 0 := by
  have h := C9_disponibilidad_esta_lleno (Taller.mk Estado.PROGRAMADO 0 0 3 3)
  have hl : (Taller.mk Estado.PROGRAMADO 0 0 3 3).esta_lleno = true :=
    (h.2.2.1).mpr (by decide)
  exact ⟨hl, ((h.2.2.2 (by decide)).mp hl)⟩

/-- `List.max?` on integers returns an element that bounds the list. -/
theorem int_max?_eq_some_iff {a : Int} {xs : List Int} :
    xs.max? = some a ↔ a ∈ xs ∧ ∀ b ∈ xs, b ≤ a := by
  haveI : Std.Antisymm (fun (x1 x2 : Int) => x1 ≤ x2) :=
    ⟨@fun _ _ h1 h2 => le_antisymm h1 h2⟩
  exact List.max?_eq_some_iff (fun a => le_refl a) (fun a b => max_choice a b)
    (fun a b c => max_le_iff)

/-- C3: a socio is current on day `hoy` iff either there is a payment whose
date is the latest among all payments and lies at most 40 days before `hoy`,
or there are no payments and the registration date lies at most 40 days
before `hoy`. -/
theorem C3_esta_al_dia_iff (hoy : Int) (s : Socio) :
    s.esta_al_dia hoy = true ↔
      ((∃ p ∈ s.pagos, (∀ q ∈ s.pagos, q.fecha ≤ p.fecha) ∧ hoy - p.fecha ≤ 40) ∨
       (s.pagos = [] ∧ hoy - s.fecha_registro ≤ 40)) := by
  unfold Socio.esta_al_dia
  rcases h : s.get_ultima_cuota with _ | m
  · have hempty : s.pagos = [] := by
      have := List.max?_eq_none_iff.mp h
      simpa using this
    simp [hempty]
  · have hm := int_max?_eq_some_iff.mp h
    obtain ⟨hmem, hub⟩ := hm
    obtain ⟨p, hp, hpf⟩ := List.mem_map.mp hmem
    simp only [decide_eq_true_eq]
    constructor
    · intro hle
      left
      exact ⟨p, hp, fun q hq => by
        rw [hpf]; exact hub q.fecha (List.mem_map.mpr ⟨q, hq, rfl⟩), by omega⟩
    · rintro (⟨r, hr, hrmax, hrle⟩ | ⟨hnil, _⟩)
      · have h1 : r.fecha ≤ m := hub r.fecha (List.mem_map.mpr ⟨r, hr, rfl⟩)
        have h2 : m ≤ r.fecha := by rw [← hpf]; exact hrmax p hp
        omega
      · rw [hnil] at hp; cases hp

/-- C6: when the category is referenced by an income or expense row, the
delete is caught: the tables are unchanged, an error flash is shown and the
view redirects to the category list; otherwise the category row is removed,
a success flash is shown and the view redirects to the category list. -/
theorem C6_categoria_delete_protected (db : FinanzasDB) (cid : Nat) :
    ((db.ingresos_categoria_ids.contains cid || db.egresos_categoria_ids.contains cid) = true →
      (CategoriaDeleteView_delete db cid).db = db ∧
      (∃ msg, (CategoriaDeleteView_delete db cid).flash = FlashMessage.error msg) ∧
      (CategoriaDeleteView_delete db cid).redirect_to = "categoria_list") ∧
    ((db.ingresos_categoria_ids.contains cid || db.egresos_categoria_ids.contains cid) = false →
      cid ∉ (CategoriaDeleteView_delete db cid).db.categorias ∧
      (∃ msg, (CategoriaDeleteView_delete db cid).flash = FlashMessage.success msg) ∧
      (CategoriaDeleteView_delete db cid).redirect_to = "categoria_list") := by
  unfold CategoriaDeleteView_delete categoriaDeleteProtected
  constructor
  · intro h
    rw [if_pos h]
    exact ⟨rfl, ⟨_, rfl⟩, rfl⟩
  · intro h
    rw [if_neg (by rw [h]; exact Bool.false_ne_true)]
    refine ⟨?_, ⟨_, rfl⟩, rfl⟩
    intro hmem
    have := (List.mem_filter.mp hmem).2
    simp at this

/-- Witness for C6: with categories 1 and 2 and one income referencing
category 1, deleting category 1 is refused with an error flash and deleting
category 2 succeeds with a success flash. -/
theorem C6_categoria_delete_protected_witness :
    ((CategoriaDeleteView_delete (FinanzasDB.mk [1, 2] [1] []) 1).db
        = FinanzasDB.mk [1, 2] [1] [] ∧
     (∃ msg, (CategoriaDeleteView_delete (FinanzasDB.mk [1, 2] [1] []) 1).flash
        = FlashMessage.error msg) ∧
     (CategoriaDeleteView_delete (FinanzasDB.mk [1, 2] [1] []) 1).redirect_to
        = "categoria_list") ∧
    (2 ∉ (CategoriaDeleteView_delete (FinanzasDB.mk [1, 2] [1] []) 2).db.categorias ∧
     (∃ msg, (CategoriaDeleteView_delete (FinanzasDB.mk [1, 2] [1] []) 2).flash
        = FlashMessage.success msg) ∧
     (CategoriaDeleteView_delete (FinanzasDB.mk [1, 2] [1] []) 2).redirect_to
        = "categoria_list") :=
  ⟨(C6_categoria_delete_protected (FinanzasDB.mk [1, 2] [1] []) 1).1 (by decide),
   (C6_categoria_delete_protected (FinanzasDB.mk [1, 2] [1] []) 2).2 (by decide)⟩

/-- A sample beneficiaria used to exercise the search endpoints. -/
def bDemo : Beneficiaria :=
  { nombres := "Maria".toList, apellidos := "Lopez".toList,
    documento_identidad := "12345678".toList }

/-- C4: the claim fails on the `buscar_beneficiarias` endpoint of the
talleres app: it filters on `Q(dni__icontains=term)` although the
`Beneficiaria` model has no field `dni` (its field is
`documento_identidad`), so every query whose term has at least 3 characters
raises `FieldError` instead of returning a JSON list.  At the failing input
(term `"mar"`): it errors while the beneficiarias-app endpoint returns the
matching row; both endpoints return the empty list on a short term, the
working endpoint caps its output at 10 rows and matches case-insensitively
on nombres, apellidos and documento_identidad. -/
theorem C4_talleres_search_raises_fielderror :
    talleres_buscar_beneficiarias "mar".toList [bDemo]
      = Except.error "FieldError: cannot resolve keyword into field" ∧
    talleres_buscar_beneficiarias "ma".toList [bDemo] = Except.ok [] ∧
    buscar_beneficiarias_api "ma".toList [bDemo] = Except.ok [] ∧
    buscar_beneficiarias_api "mar".toList [bDemo] = Except.ok [bDemo] ∧
    buscar_beneficiarias_api "345".toList [bDemo] = Except.ok [bDemo] ∧
    buscar_beneficiarias_api "xyz".toList [bDemo] = Except.ok [] ∧
    (∀ l, buscar_beneficiarias_api "mar".toList [bDemo] = Except.ok l →
      l.length ≤ 10 ∧ ∀ b ∈ l,
        (icontains b.nombres "mar".toList ||
         icontains b.apellidos "mar".toList ||
         icontains b.documento_identidad "mar".toList) = true) := by
  refine ⟨rfl, rfl, rfl, rfl, rfl, rfl, ?_⟩
  · intro l hl
    have : l = [bDemo] := by
      have h2 : buscar_beneficiarias_api "mar".toList [bDemo] = Except.ok [bDemo] := rfl
      rw [h2] at hl
      exact (Except.ok.inj hl).symm
    subst this
    exact ⟨by decide, by decide⟩

/-- Every value Lean prints for a decimal digit below ten is a digit
character. -/
theorem digitChar_isDigit : ∀ n : Nat, n < 10 → (Nat.digitChar n).isDigit = true := by
  decide

/-- Every character produced by `Nat.toDigitsCore` in base 10 is a digit,
provided the accumulator only holds digits. -/
theorem toDigitsCore_digits (fuel : Nat) :
    ∀ (n : Nat) (ds : List Char), (∀ c ∈ ds, c.isDigit = true) →
      ∀ c ∈ Nat.toDigitsCore 10 fuel n ds, c.isDigit = true := by
  induction fuel with
  | zero => intro n ds hds c hc; exact hds c (by simpa [Nat.toDigitsCore] using hc)
  | succ fuel ih =>
    intro n ds hds c hc
    rw [Nat.toDigitsCore] at hc
    by_cases h : n / 10 = 0
    · rw [if_pos h] at hc
      rcases List.mem_cons.mp hc with h1 | h1
      · subst h1; exact digitChar_isDigit _ (Nat.mod_lt _ (by decide))
      · exact hds c h1
    · rw [if_neg h] at hc
      refine ih (n / 10) _ ?_ c hc
      intro d hd
      rcases List.mem_cons.mp hd with h1 | h1
      · subst h1; exact digitChar_isDigit _ (Nat.mod_lt _ (by decide))
      · exact hds d h1

/-- Every character of the decimal representation of a natural number is a
digit. -/
theorem repr_chars_digits (n : Nat) : ∀ c ∈ (Nat.repr n).toList, c.isDigit = true := by
  intro c hc
  exact toDigitsCore_digits (n + 1) n [] (by intro d hd; cases hd) c hc

/-- C10 counterexample: when the most recently created payment stores the
comprobante `"-2"`, which Python `int` parses to `-2`, the generator returns
`"-1"`, which is not the decimal string of a positive integer. -/
theorem C10_counterexample_negative_comprobante :
    PagoSocio.get_next_comprobante [PagoSocio.mk 0 "-2"] = "-1" ∧
    ¬ esDecimalDePositivo "-1" := by
  constructor
  · rfl
  · rintro ⟨n, hn, heq⟩
    have h1 : '-' ∈ (Nat.repr n).toList := by rw [← heq]; decide
    exact absurd (repr_chars_digits n '-' h1) (by decide)

/-- Unfolding of the generator when the table is nonempty. -/
theorem get_next_comprobante_eq_last (pagos : List PagoSocio) (p : PagoSocio)
    (h : pagos.getLast? = some p) :
    PagoSocio.get_next_comprobante pagos =
      (if p.comprobante = "" then "1"
       else match pyInt p.comprobante with
         | some n => toString (n + 1)
         | none => "1") := by
  unfold PagoSocio.get_next_comprobante
  rw [h]

/-- C10 (amended): the generator returns `str(n + 1)` when the most recently
created payment exists, its comprobante is nonempty and parses as the
integer `n`, and `"1"` in every other case; the result is the decimal string
of a positive integer provided every parsed comprobante value is
nonnegative — as are all values the generator itself produces. -/
theorem C10_get_next_comprobante (pagos : List PagoSocio) :
    (∀ p n, pagos.getLast? = some p → p.comprobante ≠ "" →
      pyInt p.comprobante = some n →
      PagoSocio.get_next_comprobante pagos = toString (n + 1)) ∧
    ((pagos.getLast? = none ∨
      ∃ p, pagos.getLast? = some p ∧
        (p.comprobante = "" ∨ pyInt p.comprobante = none)) →
      PagoSocio.get_next_comprobante pagos = "1") ∧
    ((∀ p n, pagos.getLast? = some p → pyInt p.comprobante = some n → 0 ≤ n) →
      esDecimalDePositivo (PagoSocio.get_next_comprobante pagos)) := by
  have h1 : esDecimalDePositivo "1" := ⟨1, Nat.one_pos, by decide⟩
  refine ⟨?_, ?_, ?_⟩
  · intro p n hp hne hparse
    rw [get_next_comprobante_eq_last pagos p hp, if_neg hne, hparse]
  · rintro (h | ⟨p, hp, hcase⟩)
    · unfold PagoSocio.get_next_comprobante
      rw [h]
    · rw [get_next_comprobante_eq_last pagos p hp]
      rcases hcase with hemp | hnone
      · rw [if_pos hemp]
      · by_cases hemp : p.comprobante = ""
        · rw [if_pos hemp]
        · rw [if_neg hemp, hnone]
  · intro hpos
    rcases hlast : pagos.getLast? with _ | p
    · unfold PagoSocio.get_next_comprobante
      rw [hlast]
      exact h1
    · rw [get_next_comprobante_eq_last pagos p hlast]
      by_cases hemp : p.comprobante = ""
      · rw [if_pos hemp]; exact h1
      · rw [if_neg hemp]
        rcases hparse : pyInt p.comprobante with _ | n
        · exact h1
        · have hn : 0 ≤ n := hpos p n hlast hparse
          have htn : 0 < (n + 1).toNat := by omega
          refine ⟨(n + 1).toNat, htn, ?_⟩
          show toString (n + 1) = Nat.repr (n + 1).toNat
          obtain ⟨m, hm⟩ := Int.eq_ofNat_of_zero_le (show (0:Int) ≤ n + 1 by omega)
          rw [hm]
          rfl

/-- Witness for C10: after a payment with comprobante `"41"`, the next
comprobante is `"42"`, the decimal string of a positive integer. -/
theorem C10_get_next_comprobante_witness :
    PagoSocio.get_next_comprobante [PagoSocio.mk 0 "41"] = "42" ∧
    esDecimalDePositivo (PagoSocio.get_next_comprobante [PagoSocio.mk 0 "41"]) := by
  have h := C10_get_next_comprobante [PagoSocio.mk 0 "41"]
  have hg : ([PagoSocio.mk 0 "41"] : List PagoSocio).getLast? = some (PagoSocio.mk 0 "41") := rfl
  constructor
  · have h2 := h.1 (PagoSocio.mk 0 "41") 41 hg (by decide) (by rfl)
    rw [h2]
    rfl
  · refine h.2.2 ?_
    intro p n hp hparse
    rw [hg] at hp
    injection hp with hp
    rw [← hp] at hparse
    have hval : pyInt (PagoSocio.mk 0 "41").comprobante = some 41 := rfl
    rw [hval] at hparse
    injection hparse with hparse
    omega

/-- Witness for C7 at a concrete template and context. -/
theorem C7_export_stubs_disabled_witness :
    generar_pdf "reportes/talleres_pdf.html" [] =
      { content := "Funcionalidad de PDF temporalmente deshabilitada por falta de dependencias del sistema",
        content_type := "text/plain" } ∧
    exportar_balance_financiero_excel [] =
      { content := "Funcionalidad de Excel temporalmente deshabilitada por falta de dependencias del sistema",
        content_type := "text/plain" } :=
  ⟨(C7_export_stubs_disabled "reportes/talleres_pdf.html" [] []).1,
   (C7_export_stubs_disabled "reportes/talleres_pdf.html" [] []).2.2.1⟩
